import Mathlib

/-!
Verification of the selection / action-dispatch core of the Chonky
file-browser widget.  The embedding follows the source of
`useSpecialActionDispatcher` / `useSpecialFileActionHandlerMap`
(special-action handlers) and `useFileActions` (action registry map).
Selection reducers and file-capability helpers that live outside the
available sources are modelled from the specification, as marked on
each such definition.
-/

namespace Chonky

/-- A file record, reduced to its identity and the capability flags the
interaction core reads (`FileData` in the source). -/
structure FileData where
  id : String
  selectable : Bool
  openable : Bool
  draggable : Bool
  deriving DecidableEq, Repr

namespace FileHelper

/-- Modelled from the spec: `FileHelper.isSelectable` lives in
`util/file-helper.ts`, which is not among the available sources.  Spec 6:
capability queries are "pure and total over nullable input (null => false)". -/
def isSelectable : Option FileData → Bool
  | none => false
  | some file => file.selectable

/-- Modelled from the spec: `FileHelper.isOpenable` lives in
`util/file-helper.ts`, which is not among the available sources. -/
def isOpenable : Option FileData → Bool
  | none => false
  | some file => file.openable

/-- Modelled from the spec: `FileHelper.isDraggable` lives in
`util/file-helper.ts`, which is not among the available sources. -/
def isDraggable : Option FileData → Bool
  | none => false
  | some file => file.draggable

end FileHelper

/-- The per-instance state the special-action handlers read and write:
the raw file sequence, the redux selection (a set of file ids), the
parent folder, and the transient `lastClickDisplayIndexRef`. -/
structure ChonkyState where
  files : List FileData
  selection : List String
  parentFolder : Option FileData
  lastClickIndex : Option Nat
  deriving DecidableEq, Repr

/-- The redux actions the handlers create (`reduxActions` in the source). -/
inductive ReduxAction where
  | toggleSelection (fileId : String) (exclusive : Bool)
  | selectRange (rangeStart rangeEnd : Nat)
  | selectFiles (fileIds : List String) (reset : Bool)
  | clearSelection
  deriving DecidableEq, Repr

/-- Ids of the files whose display index lies in
`[min rangeStart rangeEnd, max rangeStart rangeEnd]`. -/
def rangeIds (files : List FileData) (rangeStart rangeEnd : Nat) : List String :=
  (files.enum.filter fun p =>
    decide (min rangeStart rangeEnd ≤ p.1 ∧ p.1 ≤ max rangeStart rangeEnd)).map
    fun p => p.2.id

/-- Modelled from the spec: the selection reducers live in
`redux/reducers.ts`, which is not among the available sources.  Semantics
follow spec 4.1: `toggle(fileId, exclusive)` replaces the selection with
the singleton when exclusive, else flips membership; `selectRange`
replaces the selection with every file in the index interval;
`setExact(fileIds, reset)` replaces (filtered to existing selectable
files) or unions; `clear` empties the selection. -/
def reduxDispatch (s : ChonkyState) : ReduxAction → ChonkyState
  | ReduxAction.toggleSelection fileId exclusive =>
    if exclusive then { s with selection := [fileId] }
    else if s.selection.contains fileId then
      { s with selection := s.selection.filter fun x => x ≠ fileId }
    else { s with selection := s.selection ++ [fileId] }
  | ReduxAction.selectRange rangeStart rangeEnd =>
    { s with selection := rangeIds s.files rangeStart rangeEnd }
  | ReduxAction.selectFiles fileIds reset =>
    let valid := fileIds.filter fun fid =>
      (s.files.filter fun f => f.id == fid && f.selectable).length > 0
    if reset then { s with selection := valid }
    else { s with selection := s.selection ++ valid.filter fun fid => !s.selection.contains fid }
  | ReduxAction.clearSelection => { s with selection := [] }

/-- Modelled from the spec: the selector `getIsFileSelected` lives in
`redux/selectors.ts`, which is not among the available sources.  Spec 4.1:
`isSelected(file)` queries membership of the file id in the selection. -/
def getIsFileSelected (s : ChonkyState) (file : FileData) : Bool :=
  s.selection.contains file.id

/-- Modelled from the spec: the selector `getSelectedFiles` lives in
`redux/selectors.ts`, which is not among the available sources.  Spec 4.1:
`getSelectedFiles(...predicates)` returns the selected files satisfying
all predicates. -/
def getSelectedFiles (s : ChonkyState) (pred : Option FileData → Bool) : List FileData :=
  s.files.filter fun f => s.selection.contains f.id && pred (some f)

/-- Modelled from the spec: the selector `selectSelectionSize` lives in
`redux/selectors.ts`, which is not among the available sources.  Spec 4.1:
`getSelectionSize()` is the size of the selection. -/
def selectSelectionSize (s : ChonkyState) : Nat :=
  s.selection.length

/-- An action definition (`FileAction` in the source): id plus metadata. -/
structure FileAction where
  id : String
  requiresSelection : Bool := false
  deriving DecidableEq, Repr

namespace ChonkyActions

/-- Modelled from the spec: the built-in action definitions live in
`util/file-actions-definitions.ts`, which is not among the available
sources; only the identity of the Open action matters here. -/
def OpenFiles : FileAction := { id := "open_files" }

/-- Modelled from the spec: the Move built-in action definition (see
`OpenFiles`). -/
def MoveFilesTo : FileAction := { id := "move_files_to" }

/-- Modelled from the spec: the Duplicate built-in action definition (see
`OpenFiles`). -/
def DuplicateFilesTo : FileAction := { id := "duplicate_files_to" }

end ChonkyActions

/-- Payload handed to the file-action dispatcher:
`{ actionId, target, files }`. -/
structure FileActionData where
  actionId : String
  target : Option FileData
  files : List FileData
  deriving DecidableEq, Repr

/-- A log record produced by the Logger calls in the handlers. -/
inductive LogEntry where
  | debug (msg : String)
  | warn (msg : String)
  | error (msg : String)
  deriving DecidableEq, Repr

/-- The observable outcome of running one special-action handler: the
updated state, the file actions handed to `dispatchFileActionRef`, and
the log records emitted. -/
structure HandlerResult where
  state : ChonkyState
  dispatched : List FileActionData
  logs : List LogEntry
  deriving DecidableEq, Repr

/-- Click type of a mouse click event, `single` or `double`. -/
inductive ClickType where
  | single
  | double
  deriving DecidableEq, Repr

/-- Payload of `SpecialAction.MouseClickFile`. -/
structure SpecialFileMouseClickAction where
  file : FileData
  fileDisplayIndex : Nat
  clickType : ClickType
  ctrlKey : Bool
  shiftKey : Bool
  deriving DecidableEq, Repr

/-- Payload of `SpecialAction.KeyboardClickFile`. -/
structure SpecialFileKeyboardClickAction where
  file : FileData
  fileDisplayIndex : Nat
  enterKey : Bool
  spaceKey : Bool
  ctrlKey : Bool
  deriving DecidableEq, Repr

/-- Payload of `SpecialAction.DragNDropStart`. -/
structure SpecialDragNDropStartAction where
  dragSource : FileData
  deriving DecidableEq, Repr

/-- Payload of `SpecialAction.DragNDropEnd`; `dropEffect` is the browser
drag-and-drop effect string (`copy` or `move`). -/
structure SpecialDragNDropEndAction where
  dragSource : FileData
  dropTarget : FileData
  dropEffect : String
  deriving DecidableEq, Repr

/-- Handler for `SpecialAction.MouseClickFile` (source lines 90-155). -/
def handleMouseClickFile (data : SpecialFileMouseClickAction) (s : ChonkyState) :
    HandlerResult :=
  if data.clickType = ClickType.double then
    if FileHelper.isOpenable (some data.file) then
      { state := s
        dispatched := [{ actionId := ChonkyActions.OpenFiles.id
                         target := some data.file
                         files := [data.file] }]
        logs := [] }
    else { state := s, dispatched := [], logs := [] }
  else
    if FileHelper.isSelectable (some data.file) then
      if data.ctrlKey then
        { state :=
            { reduxDispatch s (ReduxAction.toggleSelection data.file.id false) with
                lastClickIndex := some data.fileDisplayIndex }
          dispatched := []
          logs := [] }
      else if data.shiftKey then
        match s.lastClickIndex with
        | some prior =>
          let bounds :=
            if prior > data.fileDisplayIndex then (data.fileDisplayIndex, prior)
            else (prior, data.fileDisplayIndex)
          { state := reduxDispatch s (ReduxAction.selectRange bounds.1 bounds.2)
            dispatched := []
            logs := [] }
        | none =>
          { state :=
              { reduxDispatch s (ReduxAction.toggleSelection data.file.id false) with
                  lastClickIndex := some data.fileDisplayIndex }
            dispatched := []
            logs := [] }
      else
        { state :=
            { reduxDispatch s (ReduxAction.toggleSelection data.file.id true) with
                lastClickIndex := some data.fileDisplayIndex }
          dispatched := []
          logs := [] }
    else
      let s1 := if !data.ctrlKey then reduxDispatch s ReduxAction.clearSelection else s
      { state := { s1 with lastClickIndex := some data.fileDisplayIndex }
        dispatched := []
        logs := [] }

/-- Handler for `SpecialAction.KeyboardClickFile` (source lines 156-179). -/
def handleKeyboardClickFile (data : SpecialFileKeyboardClickAction) (s : ChonkyState) :
    HandlerResult :=
  let s1 := { s with lastClickIndex := some data.fileDisplayIndex }
  if data.enterKey then
    if selectSelectionSize s = 0 then
      { state := s1
        dispatched := [{ actionId := ChonkyActions.OpenFiles.id
                         target := some data.file
                         files := [data.file] }]
        logs := [] }
    else { state := s1, dispatched := [], logs := [] }
  else if data.spaceKey && FileHelper.isSelectable (some data.file) then
    { state := reduxDispatch s1 (ReduxAction.toggleSelection data.file.id data.ctrlKey)
      dispatched := []
      logs := [] }
  else { state := s1, dispatched := [], logs := [] }

/-- Message of the warning logged when the parent folder is not openable
(source lines 188-193). -/
def openParentFolderWarningMsg : String :=
  "Special action \"open_parent_folder\" was dispatched even though " ++
    "the parent folder is not openable. This indicates a bug in presentation components."

/-- Warning logged when the parent folder is not openable. -/
def openParentFolderWarning : LogEntry :=
  LogEntry.warn openParentFolderWarningMsg

/-- Handler for `SpecialAction.OpenParentFolder` (source lines 180-194). -/
def handleOpenParentFolder (s : ChonkyState) : HandlerResult :=
  if FileHelper.isOpenable s.parentFolder then
    { state := s
      dispatched := [{ actionId := ChonkyActions.OpenFiles.id
                       target := s.parentFolder
                       files := s.parentFolder.toList }]
      logs := [] }
  else
    { state := s, dispatched := [], logs := [openParentFolderWarning] }

/-- Handler for `SpecialAction.OpenFolderChainFolder` (source lines
195-203). -/
def handleOpenFolderChainFolder (file : FileData) (s : ChonkyState) : HandlerResult :=
  { state := s
    dispatched := [{ actionId := ChonkyActions.OpenFiles.id
                     target := some file
                     files := [file] }]
    logs := [] }

/-- Handler for `SpecialAction.DragNDropStart` (source lines 204-215).
The source invokes the `reduxActions.selectFiles` action creator without
passing its result to `dispatch`, so that action never reaches the store;
the embedding mirrors this by binding the created action to an unused
local. -/
def handleDragNDropStart (data : SpecialDragNDropStartAction) (s : ChonkyState) :
    HandlerResult :=
  let file := data.dragSource
  if !getIsFileSelected s file then
    let s1 := reduxDispatch s ReduxAction.clearSelection
    if FileHelper.isSelectable (some file) then
      let _created := ReduxAction.selectFiles [file.id] true
      { state := s1, dispatched := [], logs := [] }
    else { state := s1, dispatched := [], logs := [] }
  else { state := s, dispatched := [], logs := [] }

/-- Handler for `SpecialAction.DragNDropEnd` (source lines 216-236). -/
def handleDragNDropEnd (data : SpecialDragNDropEndAction) (s : ChonkyState) :
    HandlerResult :=
  if getIsFileSelected s data.dropTarget then
    { state := s, dispatched := [], logs := [] }
  else
    let selectedFiles := getSelectedFiles s FileHelper.isDraggable
    let droppedFiles := if selectedFiles.length > 0 then selectedFiles else [data.dragSource]
    { state := s
      dispatched := [{ actionId :=
                         if data.dropEffect == "copy" then ChonkyActions.DuplicateFilesTo.id
                         else ChonkyActions.MoveFilesTo.id
                       target := some data.dropTarget
                       files := droppedFiles }]
      logs := [] }

/-- A registered special-action handler, as seen by the dispatcher: it
either completes with a `HandlerResult`, or throws, carrying the error
message together with the state as mutated up to the throw point. -/
def SpecialActionHandler : Type :=
  ChonkyState → Except (String × ChonkyState) HandlerResult

/-- Dispatch entry point `dispatchSpecialAction` (source lines 40-62): look the handler up by
action id; a missing handler is logged as an error and the action
dropped; a throwing handler is caught and logged, never propagated.  The
function is total: it returns a `HandlerResult` for every input. -/
def dispatchSpecialAction (specialActionHandlerMap : String → Option SpecialActionHandler)
    (actionId : String) (s : ChonkyState) : HandlerResult :=
  match specialActionHandlerMap actionId with
  | some handler =>
    match handler s with
    | Except.ok result => result
    | Except.error err =>
      { state := err.2
        dispatched := []
        logs := [LogEntry.error ("Handler for special action \"" ++ actionId ++
          "\" threw an error. " ++ err.1)] }
  | none =>
    { state := s
      dispatched := []
      logs := [LogEntry.error ("Internal components dispatched a \"" ++ actionId ++
        "\" special action, but no internal handler is available to process it.")] }

/-- Effect running whenever `rawFiles` changes (source lines 81-85): the
raw file sequence is replaced and `lastClickDisplayIndexRef` is zeroed
out before any further interaction event is interpreted. -/
def applyFilesUpdate (newFiles : List FileData) (s : ChonkyState) : ChonkyState :=
  { s with files := newFiles, lastClickIndex := none }

/-- Construction of `fileActionMap` in `useFileActions`
(`util/file-actions.ts` lines 31-37): an empty map filled by a
left-to-right loop `for action of fileActions: map[action.id] = action`. -/
def fileActionMap (fileActions : List FileAction) : String → Option FileAction :=
  fileActions.foldl
    (fun m action => fun key => if key = action.id then some action else m key)
    (fun _ => none)

/-! Concrete files and states used to instantiate the theorems below. -/

/-- Sample file "a": selectable, openable, draggable. -/
def fileA : FileData := { id := "a", selectable := true, openable := true, draggable := true }

/-- Sample file "b": selectable, openable, draggable. -/
def fileB : FileData := { id := "b", selectable := true, openable := true, draggable := true }

/-- Sample file "c": selectable, openable, draggable. -/
def fileC : FileData := { id := "c", selectable := true, openable := true, draggable := true }

/-- Sample folder "d": openable drop target, not draggable. -/
def folderD : FileData := { id := "d", selectable := true, openable := true, draggable := false }

/-- Sample inert file: no capability at all. -/
def lockedFile : FileData :=
  { id := "locked", selectable := false, openable := false, draggable := false }

/-- Sample state: files a, b, c all selected, parent folder d, no click anchor. -/
def demoState : ChonkyState :=
  { files := [fileA, fileB, fileC]
    selection := ["a", "b", "c"]
    parentFolder := some folderD
    lastClickIndex := none }

/-- Sample state: only file a selected, no parent folder, no click anchor. -/
def dragState : ChonkyState :=
  { files := [fileA, fileB, fileC]
    selection := ["a"]
    parentFolder := none
    lastClickIndex := none }

/-- A handler that always throws, carrying the state it was handed. -/
def throwingHandler : SpecialActionHandler :=
  fun st => Except.error ("kaput", st)

/-- A handler that completes normally and clears the selection. -/
def clearingHandler : SpecialActionHandler :=
  fun st => Except.ok { state := { st with selection := [] }, dispatched := [], logs := [] }

/-- A demo handler map holding one throwing and one well-behaved handler. -/
def demoHandlerMap : String → Option SpecialActionHandler := fun actionId =>
  if actionId = "throwing_action" then some throwingHandler
  else if actionId = "clearing_action" then some clearingHandler
  else none

/-- Normalising the range bounds is idempotent: `rangeIds` already takes
the min and max of its two arguments. -/
theorem rangeIds_norm (files : List FileData) (a b : Nat) :
    rangeIds files a b = rangeIds files (min a b) (max a b) := by
  unfold rangeIds
  rw [min_eq_left min_le_max, max_eq_right min_le_max]

/-- C1: the claim says a drag-start on a selectable file outside the
current selection leaves exactly that file selected.  The code clears the
selection and then builds the `selectFiles` redux action without
dispatching it, so the resulting selection is empty: evaluated here at a
concrete failing input (drag source b, selectable, not in selection). -/
theorem dragNDropStart_leaves_selection_empty :
    getIsFileSelected dragState fileB = false ∧
    FileHelper.isSelectable (some fileB) = true ∧
    (handleDragNDropStart { dragSource := fileB } dragState).state.selection = [] ∧
    (handleDragNDropStart { dragSource := fileB } dragState).state.selection ≠ [fileB.id] := by
  decide

/-- C2: a drag-end whose drop target is currently selected dispatches
nothing and leaves the state unchanged; otherwise exactly one action is
dispatched: Duplicate on drop effect "copy", Move otherwise, targeting
the drop target, with files the draggable part of the selection when
non-empty and the single drag source otherwise. -/
theorem dragNDropEnd_dispatch (data : SpecialDragNDropEndAction) (s : ChonkyState) :
    (getIsFileSelected s data.dropTarget = true →
      handleDragNDropEnd data s = { state := s, dispatched := [], logs := [] }) ∧
    (getIsFileSelected s data.dropTarget = false →
      (handleDragNDropEnd data s).state = s ∧
      (handleDragNDropEnd data s).dispatched =
        [{ actionId :=
             if data.dropEffect == "copy" then ChonkyActions.DuplicateFilesTo.id
             else ChonkyActions.MoveFilesTo.id
           target := some data.dropTarget
           files :=
             if getSelectedFiles s FileHelper.isDraggable ≠ [] then
               getSelectedFiles s FileHelper.isDraggable
             else [data.dragSource] }]) := by
  constructor
  · intro h
    simp [handleDragNDropEnd, h]
  · intro h
    have hlen : (0 < (getSelectedFiles s FileHelper.isDraggable).length) ↔
        getSelectedFiles s FileHelper.isDraggable ≠ [] := List.length_pos
    constructor
    · simp [handleDragNDropEnd, h]
    · simp only [handleDragNDropEnd, h, Bool.false_eq_true, if_false, gt_iff_lt]
      rw [if_congr hlen rfl rfl]

/-- C2 witness: drop on selected file a rejects; drop of b on folder d
with effect "move" moves the whole draggable selection a, b, c. -/
theorem dragNDropEnd_dispatch_witness :
    getIsFileSelected demoState fileA = true ∧
    handleDragNDropEnd { dragSource := fileA, dropTarget := fileA, dropEffect := "move" }
        demoState = { state := demoState, dispatched := [], logs := [] } ∧
    getIsFileSelected demoState folderD = false ∧
    (handleDragNDropEnd { dragSource := fileB, dropTarget := folderD, dropEffect := "move" }
        demoState).dispatched =
      [{ actionId :=
           if ("move" == "copy") then ChonkyActions.DuplicateFilesTo.id
           else ChonkyActions.MoveFilesTo.id
         target := some folderD
         files :=
           if getSelectedFiles demoState FileHelper.isDraggable ≠ [] then
             getSelectedFiles demoState FileHelper.isDraggable
           else [fileB] }] :=
  ⟨by decide,
   (dragNDropEnd_dispatch { dragSource := fileA, dropTarget := fileA, dropEffect := "move" }
     demoState).1 (by decide),
   by decide,
   ((dragNDropEnd_dispatch { dragSource := fileB, dropTarget := folderD, dropEffect := "move" }
     demoState).2 (by decide)).2⟩

/-- C3: a double click on an openable file dispatches exactly one Open
action whose files list is the singleton of the clicked file and whose
target is that file; a double click on a non-openable file dispatches
nothing; in both cases the selection and the last-click-index are left
unchanged. -/
theorem doubleClick_opens_single_file (data : SpecialFileMouseClickAction) (s : ChonkyState)
    (hdouble : data.clickType = ClickType.double) :
    (FileHelper.isOpenable (some data.file) = true →
      (handleMouseClickFile data s).dispatched =
        [{ actionId := ChonkyActions.OpenFiles.id
           target := some data.file
           files := [data.file] }]) ∧
    (FileHelper.isOpenable (some data.file) = false →
      (handleMouseClickFile data s).dispatched = []) ∧
    (handleMouseClickFile data s).state.selection = s.selection ∧
    (handleMouseClickFile data s).state.lastClickIndex = s.lastClickIndex := by
  refine ⟨fun h => ?_, fun h => ?_, ?_, ?_⟩
  · simp [handleMouseClickFile, hdouble, h]
  · simp [handleMouseClickFile, hdouble, h]
  · cases h : FileHelper.isOpenable (some data.file) <;>
      simp [handleMouseClickFile, hdouble, h]
  · cases h : FileHelper.isOpenable (some data.file) <;>
      simp [handleMouseClickFile, hdouble, h]

/-- C3 witness: double click on openable file a while three files are
pre-selected opens only a and keeps the selection. -/
theorem doubleClick_opens_single_file_witness :
    ({ file := fileA, fileDisplayIndex := 0, clickType := ClickType.double,
       ctrlKey := false, shiftKey := false } : SpecialFileMouseClickAction).clickType =
      ClickType.double ∧
    FileHelper.isOpenable (some fileA) = true ∧
    (handleMouseClickFile
      { file := fileA, fileDisplayIndex := 0, clickType := ClickType.double,
        ctrlKey := false, shiftKey := false } demoState).dispatched =
      [{ actionId := ChonkyActions.OpenFiles.id
         target := some fileA
         files := [fileA] }] :=
  ⟨rfl, by decide,
   (doubleClick_opens_single_file
     { file := fileA, fileDisplayIndex := 0, clickType := ClickType.double,
       ctrlKey := false, shiftKey := false } demoState rfl).1 (by decide)⟩

/-- C4: a single shift-click (ctrl not held) on a selectable file with a
prior click anchor selects exactly the display-index range
`[min(prior, current), max(prior, current)]`, leaves the last-click-index
unchanged, and dispatches nothing. -/
theorem shiftClick_selects_range (data : SpecialFileMouseClickAction) (s : ChonkyState)
    (prior : Nat)
    (hsingle : data.clickType = ClickType.single)
    (hsel : FileHelper.isSelectable (some data.file) = true)
    (hshift : data.shiftKey = true) (hctrl : data.ctrlKey = false)
    (hprior : s.lastClickIndex = some prior) :
    (handleMouseClickFile data s).state.selection =
      rangeIds s.files (min prior data.fileDisplayIndex) (max prior data.fileDisplayIndex) ∧
    (handleMouseClickFile data s).state.lastClickIndex = s.lastClickIndex ∧
    (handleMouseClickFile data s).dispatched = [] := by
  have hres : handleMouseClickFile data s =
      { state := reduxDispatch s (ReduxAction.selectRange
          (if prior > data.fileDisplayIndex then data.fileDisplayIndex else prior)
          (if prior > data.fileDisplayIndex then prior else data.fileDisplayIndex))
        dispatched := []
        logs := [] } := by
    by_cases hgt : prior > data.fileDisplayIndex <;>
      simp [handleMouseClickFile, hsingle, hsel, hshift, hctrl, hprior, hgt]
  refine ⟨?_, ?_, ?_⟩
  · rw [hres]
    by_cases hgt : prior > data.fileDisplayIndex
    · simp only [hgt, if_true, reduxDispatch]
      rw [rangeIds_norm, Nat.min_comm data.fileDisplayIndex prior,
        Nat.max_comm data.fileDisplayIndex prior]
    · simp only [hgt, if_false, reduxDispatch]
      exact rangeIds_norm s.files prior data.fileDisplayIndex
  · rw [hres]
    simp [reduxDispatch]
  · rw [hres]

/-- C4 witness: with anchor 2 and shift-click on index 0, the selection
becomes the range over indices 0 to 2 and the anchor stays 2. -/
theorem shiftClick_selects_range_witness :
    (({ dragState with lastClickIndex := some 2 } : ChonkyState).lastClickIndex = some 2) ∧
    (handleMouseClickFile
      { file := fileA, fileDisplayIndex := 0, clickType := ClickType.single,
        ctrlKey := false, shiftKey := true }
      { dragState with lastClickIndex := some 2 }).state.selection =
      rangeIds dragState.files (min 2 0) (max 2 0) ∧
    (handleMouseClickFile
      { file := fileA, fileDisplayIndex := 0, clickType := ClickType.single,
        ctrlKey := false, shiftKey := true }
      { dragState with lastClickIndex := some 2 }).state.lastClickIndex = some 2 :=
  ⟨rfl,
   (shiftClick_selects_range
     { file := fileA, fileDisplayIndex := 0, clickType := ClickType.single,
       ctrlKey := false, shiftKey := true }
     { dragState with lastClickIndex := some 2 } 2 rfl (by decide) rfl rfl rfl).1,
   (shiftClick_selects_range
     { file := fileA, fileDisplayIndex := 0, clickType := ClickType.single,
       ctrlKey := false, shiftKey := true }
     { dragState with lastClickIndex := some 2 } 2 rfl (by decide) rfl rfl rfl).2.1⟩

/-- C5: a single shift-click (ctrl not held) on a selectable file with no
prior click anchor produces exactly the same handler result as a
ctrl-click on the same file in the same state: the membership of the file in
the selection is toggled additively and the last-click-index becomes this
display index of this click. -/
theorem shiftClick_noAnchor_eq_ctrlClick (data : SpecialFileMouseClickAction)
    (s : ChonkyState)
    (hsingle : data.clickType = ClickType.single)
    (hsel : FileHelper.isSelectable (some data.file) = true)
    (hshift : data.shiftKey = true) (hctrl : data.ctrlKey = false)
    (hnone : s.lastClickIndex = none) :
    handleMouseClickFile data s = handleMouseClickFile { data with ctrlKey := true } s ∧
    (handleMouseClickFile data s).state.selection =
      (if s.selection.contains data.file.id then
        s.selection.filter fun x => x ≠ data.file.id
      else s.selection ++ [data.file.id]) ∧
    (handleMouseClickFile data s).state.lastClickIndex = some data.fileDisplayIndex := by
  have hres : handleMouseClickFile data s =
      { state :=
          { reduxDispatch s (ReduxAction.toggleSelection data.file.id false) with
              lastClickIndex := some data.fileDisplayIndex }
        dispatched := []
        logs := [] } := by
    simp [handleMouseClickFile, hsingle, hsel, hshift, hctrl, hnone]
  have hresCtrl : handleMouseClickFile { data with ctrlKey := true } s =
      { state :=
          { reduxDispatch s (ReduxAction.toggleSelection data.file.id false) with
              lastClickIndex := some data.fileDisplayIndex }
        dispatched := []
        logs := [] } := by
    simp [handleMouseClickFile, hsingle, hsel]
  refine ⟨?_, ?_, ?_⟩
  · rw [hres, hresCtrl]
  · rw [hres]
    by_cases hmem : data.file.id ∈ s.selection <;> simp [reduxDispatch, hmem]
  · rw [hres]

/-- C5 witness: shift-click on unselected file b with no anchor adds b to
the selection and sets the anchor, exactly as a ctrl-click would. -/
theorem shiftClick_noAnchor_eq_ctrlClick_witness :
    dragState.lastClickIndex = none ∧
    handleMouseClickFile
        { file := fileB, fileDisplayIndex := 1, clickType := ClickType.single,
          ctrlKey := false, shiftKey := true } dragState =
      handleMouseClickFile
        { file := fileB, fileDisplayIndex := 1, clickType := ClickType.single,
          ctrlKey := true, shiftKey := true } dragState ∧
    (handleMouseClickFile
        { file := fileB, fileDisplayIndex := 1, clickType := ClickType.single,
          ctrlKey := false, shiftKey := true } dragState).state.lastClickIndex = some 1 :=
  ⟨rfl,
   (shiftClick_noAnchor_eq_ctrlClick
     { file := fileB, fileDisplayIndex := 1, clickType := ClickType.single,
       ctrlKey := false, shiftKey := true } dragState rfl (by decide) rfl rfl rfl).1,
   (shiftClick_noAnchor_eq_ctrlClick
     { file := fileB, fileDisplayIndex := 1, clickType := ClickType.single,
       ctrlKey := false, shiftKey := true } dragState rfl (by decide) rfl rfl rfl).2.2⟩

/-- C6: a keyboard click with the Enter key dispatches exactly one Open
action for the focused file when the selection size is zero, dispatches
nothing from this handler when the selection size is non-zero, and in
both cases sets the last-click-index to the display index of the row. -/
theorem keyboardEnter_opens_when_selection_empty (data : SpecialFileKeyboardClickAction)
    (s : ChonkyState) (henter : data.enterKey = true) :
    (handleKeyboardClickFile data s).state.lastClickIndex = some data.fileDisplayIndex ∧
    (selectSelectionSize s = 0 →
      (handleKeyboardClickFile data s).dispatched =
        [{ actionId := ChonkyActions.OpenFiles.id
           target := some data.file
           files := [data.file] }]) ∧
    (selectSelectionSize s ≠ 0 →
      (handleKeyboardClickFile data s).dispatched = []) := by
  refine ⟨?_, fun h => ?_, fun h => ?_⟩
  · by_cases h : selectSelectionSize s = 0 <;> simp [handleKeyboardClickFile, henter, h]
  · simp [handleKeyboardClickFile, henter, h]
  · simp [handleKeyboardClickFile, henter, h]

/-- C6 witness: Enter with empty selection opens the focused file b;
Enter with three files selected dispatches nothing, and both set the
anchor to the row index. -/
theorem keyboardEnter_opens_when_selection_empty_witness :
    selectSelectionSize { dragState with selection := [] } = 0 ∧
    (handleKeyboardClickFile
        { file := fileB, fileDisplayIndex := 1, enterKey := true, spaceKey := false,
          ctrlKey := false } { dragState with selection := [] }).dispatched =
      [{ actionId := ChonkyActions.OpenFiles.id
         target := some fileB
         files := [fileB] }] ∧
    selectSelectionSize demoState ≠ 0 ∧
    (handleKeyboardClickFile
        { file := fileB, fileDisplayIndex := 1, enterKey := true, spaceKey := false,
          ctrlKey := false } demoState).dispatched = [] ∧
    (handleKeyboardClickFile
        { file := fileB, fileDisplayIndex := 1, enterKey := true, spaceKey := false,
          ctrlKey := false } demoState).state.lastClickIndex = some 1 :=
  ⟨by decide,
   (keyboardEnter_opens_when_selection_empty
     { file := fileB, fileDisplayIndex := 1, enterKey := true, spaceKey := false,
       ctrlKey := false } { dragState with selection := [] } rfl).2.1 (by decide),
   by decide,
   (keyboardEnter_opens_when_selection_empty
     { file := fileB, fileDisplayIndex := 1, enterKey := true, spaceKey := false,
       ctrlKey := false } demoState rfl).2.2 (by decide),
   (keyboardEnter_opens_when_selection_empty
     { file := fileB, fileDisplayIndex := 1, enterKey := true, spaceKey := false,
       ctrlKey := false } demoState rfl).1⟩

/-- C7: the special-action dispatch entry point is a total function of
its input (it never throws).  A missing handler is logged as an error and
the action dropped with no state change; the exception of a throwing handler
is caught and logged, never propagated; and a subsequent independent
dispatch still reaches its registered handler. -/
theorem dispatchSpecialAction_isolates
    (specialActionHandlerMap : String → Option SpecialActionHandler)
    (a : String) (s : ChonkyState) :
    (specialActionHandlerMap a = none →
      (dispatchSpecialAction specialActionHandlerMap a s).state = s ∧
      (dispatchSpecialAction specialActionHandlerMap a s).dispatched = [] ∧
      ∃ msg, (dispatchSpecialAction specialActionHandlerMap a s).logs =
        [LogEntry.error msg]) ∧
    (∀ h err s2, specialActionHandlerMap a = some h → h s = Except.error (err, s2) →
      ∃ msg, (dispatchSpecialAction specialActionHandlerMap a s).logs =
        [LogEntry.error msg]) ∧
    (∀ b h2 r, specialActionHandlerMap b = some h2 →
      h2 (dispatchSpecialAction specialActionHandlerMap a s).state = Except.ok r →
      dispatchSpecialAction specialActionHandlerMap b
        (dispatchSpecialAction specialActionHandlerMap a s).state = r) := by
  refine ⟨fun h => ?_, fun h err s2 hh hthrow => ?_, fun b h2 r hh hok => ?_⟩
  · simp [dispatchSpecialAction, h]
  · simp [dispatchSpecialAction, hh, hthrow]
  · generalize (dispatchSpecialAction specialActionHandlerMap a s).state = s1 at hok ⊢
    simp [dispatchSpecialAction, hh, hok]

/-- C7 witness: a missing id leaves the demo state untouched, a throwing
handler is caught with an error log, and a following dispatch to the
well-behaved handler still runs it. -/
theorem dispatchSpecialAction_isolates_witness :
    demoHandlerMap "missing_action" = none ∧
    (dispatchSpecialAction demoHandlerMap "missing_action" demoState).state = demoState ∧
    demoHandlerMap "throwing_action" = some throwingHandler ∧
    throwingHandler demoState = Except.error ("kaput", demoState) ∧
    (∃ msg, (dispatchSpecialAction demoHandlerMap "throwing_action" demoState).logs =
      [LogEntry.error msg]) ∧
    dispatchSpecialAction demoHandlerMap "clearing_action"
        (dispatchSpecialAction demoHandlerMap "throwing_action" demoState).state =
      { state := { demoState with selection := [] }, dispatched := [], logs := [] } :=
  ⟨rfl,
   ((dispatchSpecialAction_isolates demoHandlerMap "missing_action" demoState).1 rfl).1,
   rfl, rfl,
   (dispatchSpecialAction_isolates demoHandlerMap "throwing_action" demoState).2.1
     throwingHandler "kaput" demoState rfl rfl,
   (dispatchSpecialAction_isolates demoHandlerMap "throwing_action" demoState).2.2
     "clearing_action" clearingHandler
     { state := { demoState with selection := [] }, dispatched := [], logs := [] } rfl rfl⟩

/-- C8: an open-parent-folder request with an openable parent dispatches
exactly one Open action with the parent folder as target and sole files
element; with a non-openable parent a warning is logged, nothing is
dispatched, and the selection and last-click-index are unchanged. -/
theorem openParentFolder_requires_openable_parent (s : ChonkyState) :
    (∀ p : FileData, s.parentFolder = some p → p.openable = true →
      handleOpenParentFolder s =
        { state := s
          dispatched := [{ actionId := ChonkyActions.OpenFiles.id
                           target := some p
                           files := [p] }]
          logs := [] }) ∧
    (FileHelper.isOpenable s.parentFolder = false →
      (handleOpenParentFolder s).state.selection = s.selection ∧
      (handleOpenParentFolder s).state.lastClickIndex = s.lastClickIndex ∧
      (handleOpenParentFolder s).dispatched = [] ∧
      ∃ msg, (handleOpenParentFolder s).logs = [LogEntry.warn msg]) := by
  constructor
  · intro p hp hopen
    simp [handleOpenParentFolder, hp, FileHelper.isOpenable, hopen]
  · intro h
    refine ⟨?_, ?_, ?_, ?_⟩
    · simp [handleOpenParentFolder, h]
    · simp [handleOpenParentFolder, h]
    · simp [handleOpenParentFolder, h]
    · have hlogs : (handleOpenParentFolder s).logs = [openParentFolderWarning] := by
        simp [handleOpenParentFolder, h]
      exact ⟨openParentFolderWarningMsg, by rw [hlogs]; rfl⟩

/-- C8 witness: parent folder d is openable in the demo state and gets a
single Open dispatch; the drag state has no parent folder, so the request
is a no-op apart from the warning. -/
theorem openParentFolder_requires_openable_parent_witness :
    demoState.parentFolder = some folderD ∧
    folderD.openable = true ∧
    handleOpenParentFolder demoState =
      { state := demoState
        dispatched := [{ actionId := ChonkyActions.OpenFiles.id
                         target := some folderD
                         files := [folderD] }]
        logs := [] } ∧
    FileHelper.isOpenable dragState.parentFolder = false ∧
    (handleOpenParentFolder dragState).dispatched = [] ∧
    (handleOpenParentFolder dragState).state.selection = dragState.selection :=
  ⟨rfl, rfl,
   (openParentFolder_requires_openable_parent demoState).1 folderD rfl rfl,
   by decide,
   ((openParentFolder_requires_openable_parent dragState).2 (by decide)).2.2.1,
   ((openParentFolder_requires_openable_parent dragState).2 (by decide)).1⟩

/-- C9: whenever the raw file sequence changes the last-click-index is
reset to none, so a shift-click interpreted after the change cannot
range-select from an anchor established against the old sequence: it
falls through to the additive toggle branch. -/
theorem filesUpdate_resets_anchor (newFiles : List FileData) (s : ChonkyState)
    (data : SpecialFileMouseClickAction)
    (hsingle : data.clickType = ClickType.single)
    (hsel : FileHelper.isSelectable (some data.file) = true)
    (hshift : data.shiftKey = true) (hctrl : data.ctrlKey = false) :
    (applyFilesUpdate newFiles s).lastClickIndex = none ∧
    (handleMouseClickFile data (applyFilesUpdate newFiles s)).state.selection =
      (reduxDispatch (applyFilesUpdate newFiles s)
        (ReduxAction.toggleSelection data.file.id false)).selection := by
  constructor
  · rfl
  · by_cases hmem : data.file.id ∈ s.selection <;>
      simp [handleMouseClickFile, hsingle, hsel, hshift, hctrl, applyFilesUpdate,
        reduxDispatch, hmem]

/-- C9 witness: a stale anchor 2 is wiped by a files update, and the next
shift-click on b just toggles b into the selection. -/
theorem filesUpdate_resets_anchor_witness :
    (applyFilesUpdate [fileA, fileB]
      { dragState with lastClickIndex := some 2 }).lastClickIndex = none ∧
    (handleMouseClickFile
      { file := fileB, fileDisplayIndex := 1, clickType := ClickType.single,
        ctrlKey := false, shiftKey := true }
      (applyFilesUpdate [fileA, fileB]
        { dragState with lastClickIndex := some 2 })).state.selection =
      (reduxDispatch
        (applyFilesUpdate [fileA, fileB] { dragState with lastClickIndex := some 2 })
        (ReduxAction.toggleSelection fileB.id false)).selection :=
  ⟨(filesUpdate_resets_anchor [fileA, fileB] { dragState with lastClickIndex := some 2 }
     { file := fileB, fileDisplayIndex := 1, clickType := ClickType.single,
       ctrlKey := false, shiftKey := true } rfl (by decide) rfl rfl).1,
   (filesUpdate_resets_anchor [fileA, fileB] { dragState with lastClickIndex := some 2 }
     { file := fileB, fileDisplayIndex := 1, clickType := ClickType.single,
       ctrlKey := false, shiftKey := true } rfl (by decide) rfl rfl).2⟩

/-- Appending one action to the list updates the map at exactly that
id of that action. -/
theorem fileActionMap_concat (fileActions : List FileAction) (a : FileAction)
    (key : String) :
    fileActionMap (fileActions ++ [a]) key =
      if key = a.id then some a else fileActionMap fileActions key := by
  simp [fileActionMap, List.foldl_append]

/-- C10: the action registry map is a left-to-right fold over the action
list, so every lookup returns the last action in the list bearing the
looked-up id, the key set is exactly the set of ids occurring in the
list, and a lookup of an absent id yields nothing. -/
theorem fileActionMap_lastWins (fileActions : List FileAction) (key : String) :
    fileActionMap fileActions key =
      (fileActions.filter fun a => a.id == key).getLast? ∧
    ((fileActionMap fileActions key).isSome ↔ key ∈ fileActions.map FileAction.id) := by
  induction fileActions using List.reverseRecOn with
  | nil => simp [fileActionMap]
  | append_singleton as a ih =>
    rw [fileActionMap_concat]
    constructor
    · by_cases h : key = a.id
      · simp [h, List.filter_append, List.getLast?_concat]
      · have hne : (a.id == key) = false := by
          simp [Ne.symm h]
        simp [h, List.filter_append, hne, ih.1]
    · by_cases h : key = a.id
      · simp [h]
      · have hne : (a.id == key) = false := by
          simp [Ne.symm h]
        simp [h, ih.2]

end Chonky
